import Mathlib

/-!
Verification of the Google Maps scraper (`src/app.py`) against its
natural-language specification.

The development shallowly embeds the extraction, classification, retry-loop,
merge and enrichment logic of `app.py` as executable Lean definitions and
proves (or refutes) the frozen claims C1..C10 about them.

Modelling conventions:
* Python strings are Lean `String`s; the character-level helpers `py_in`,
  `py_lower`, `py_startswith` mirror Python's `in`, `str.lower` and
  `str.startswith` on the ASCII inputs this program deals with.
* A BeautifulSoup element is modelled by `Elem` (its visible text plus its
  attribute dictionary); the result of `find_element_with_fallback` for a
  field is modelled as the list of matched elements, `[]` standing for the
  `None` / no-selector-matched case (the source only ever returns `None` or a
  non-empty list).
* Exceptions raised while processing one business card are modelled by the
  `Fragment.raising` constructor; the bare `except: continue` of the source
  becomes the corresponding branch of `extract_business_data_loop`.
* Network effects are passed in explicitly: the retry loop consumes a
  `FetchResult` per iteration, and the email enricher receives the HTTP
  layer as a function argument (`none` = the request raised, e.g. a timeout).
-/

namespace GMaps

/-- `beginsWith hay pre = true` iff `pre` is an initial run of `hay`
(character-level model of Python `str.startswith`). -/
def beginsWith : List Char → List Char → Bool
  | _, [] => true
  | [], _ :: _ => false
  | x :: xs, y :: ys => x == y && beginsWith xs ys

/-- Helper for `py_in`: does `needle` occur contiguously in `hay`? -/
def hasSubAux : List Char → List Char → Bool
  | [], needle => needle.isEmpty
  | x :: xs, needle => beginsWith (x :: xs) needle || hasSubAux xs needle

/-- Python's substring test `needle in hay`. -/
def py_in (needle hay : String) : Bool := hasSubAux hay.data needle.data

/-- Python's `str.lower`. `Char.toLower` lowers exactly ASCII `A`-`Z`, which
matches `str.lower` on the ASCII text this scraper compares. -/
def py_lower (s : String) : String := String.mk (s.data.map Char.toLower)

/-- Python's `str.startswith`. -/
def py_startswith (s pre : String) : Bool := beginsWith s.data pre.data

/-- Python's `\s` class for the ASCII whitespace the pages contain. -/
def py_isspace (c : Char) : Bool :=
  c == ' ' || c == '\t' || c == '\n' || c == '\r' || c == '\x0b' || c == '\x0c'

/-- `clean_text` (app.py:81-85): `re.sub(r'\s+', ' ', text).strip()`.
Collapsing every whitespace run to one space and stripping the ends is the
same as joining the whitespace-separated tokens with single spaces, which is
how it is written here. The `text is None` guard of the source is not needed:
in this model element text is always a `String`. -/
def clean_text (s : String) : String :=
  String.mk (List.intercalate [' ']
    ((List.splitOnP py_isspace s.data).filter (fun t => !t.isEmpty)))

/-- Split a character list at every occurrence of `c`
(Python `str.split(c)` for a one-character separator). -/
def splitOnCh (c : Char) : List Char → List (List Char)
  | [] => [[]]
  | x :: xs =>
    if x == c then [] :: splitOnCh c xs
    else
      match splitOnCh c xs with
      | [] => [[x]]
      | h :: t => (x :: h) :: t

/-- Split at the first occurrence of `c` (Python `str.split(c, 1)`);
`none` when `c` does not occur. -/
def splitFirst (c : Char) : List Char → Option (List Char × List Char)
  | [] => none
  | x :: xs =>
    if x == c then some ([], xs)
    else (splitFirst c xs).map (fun p => (x :: p.1, p.2))

/-- The query component of a URL as `urlparse` computes it: everything after
the first `?`, with a `#`-fragment stripped first (app.py:91 uses
`urlparse(url).query`). -/
def urlQuery (url : String) : String :=
  let noFrag :=
    match splitFirst '#' url.data with
    | some p => p.1
    | none => url.data
  match splitFirst '?' noFrag with
  | some p => String.mk p.2
  | none => ""

/-- `urllib.parse.parse_qs` on a query string, flattened to the ordered
key/value pairs (`parse_qsl` with the default `keep_blank_values=False`):
split on `&`, split each field at its first `=`, skip fields without `=`
and fields whose value is empty. Percent/plus decoding is omitted: no URL in
scope contains an escape sequence. -/
def parse_qsl (q : List Char) : List (String × String) :=
  (splitOnCh '&' q).filterMap (fun field =>
    match splitFirst '=' field with
    | none => none
    | some p => if p.2 = [] then none else some (String.mk p.1, String.mk p.2))

/-- `parse_qs(query).get(key, [default])[0]` — the first value recorded for
`key`, if any. -/
def qs_get_first (q : List Char) (key : String) : Option String :=
  ((parse_qsl q).filter (fun p => p.1 == key)).head?.map (fun p => p.2)

/-- `resolve_google_redirect` (app.py:87-97): only URLs starting with the
literal `https://www.google.com/url?` are unwrapped; the result is
`query.get('q', [url])[0] or query.get('url', [url])[0]` — Python `or`
returns the left operand unless it is falsy (the empty string). The
`try/except` of the source cannot fire in this model (all operations are
total), matching its role of passing malformed URLs through unchanged. -/
def resolve_google_redirect (url : String) : String :=
  if py_startswith url "https://www.google.com/url?" then
    let q := (urlQuery url).data
    let a := (qs_get_first q "q").getD url
    if a ≠ "" then a else (qs_get_first q "url").getD url
  else url

/-- `re.search(r'(\d+\.?\d*)', s)` (app.py:192,197): the leftmost maximal
token of digits, an optional dot, and more digits; `none` when `s` has no
digit. -/
def reSearchDecimal : List Char → Option (List Char)
  | [] => none
  | c :: cs =>
    if c.isDigit then
      let d1 := (c :: cs).takeWhile Char.isDigit
      let rest := (c :: cs).dropWhile Char.isDigit
      some (match rest with
        | '.' :: r2 => d1 ++ '.' :: r2.takeWhile Char.isDigit
        | _ => d1)
    else reSearchDecimal cs

/-- `re.search(r'(\d[\d,]*)', s)` (app.py:207): the leftmost digit followed
by the maximal run of digits and commas. -/
def reSearchIntComma : List Char → Option (List Char)
  | [] => none
  | c :: cs =>
    if c.isDigit then some (c :: cs.takeWhile (fun x => x.isDigit || x == ','))
    else reSearchIntComma cs

/-- A BeautifulSoup element: its text and its attribute dictionary. -/
structure Elem where
  text : String
  attrs : List (String × String)
deriving DecidableEq

/-- `'k' in elem.attrs` / `elem['k']`: the first value stored under `k`. -/
def attr_get (e : Elem) (k : String) : Option String :=
  ((e.attrs.filter (fun p => p.1 == k)).head?).map (fun p => p.2)

/-- One business-card fragment, presented as the per-field outcome of
`find_element_with_fallback(card, SELECTORS[...])` (app.py:122-131):
the non-empty list of elements the first working selector returned, or `[]`
when every selector failed (`None` in the source). -/
structure Card where
  name_elems : List Elem
  address_elems : List Elem
  phone_elems : List Elem
  website_elems : List Elem
  rating_elems : List Elem
  reviews_elems : List Elem
  category_elems : List Elem
deriving DecidableEq

/-- Name / phone / category pattern (app.py:155,173,213):
`clean_text(elems[0].text) if elems and len(elems) > 0 else "N/A"`. -/
def text_head_or_na : List Elem → String
  | [] => "N/A"
  | e :: _ => clean_text e.text

/-- The filter words of the address loop (app.py:163). -/
def address_bad_words : List String := ["hours", "open", "closed", "phone"]

/-- The address search loop (app.py:160-165): first element whose cleaned
text is non-empty and contains none of the filter words. -/
def address_first_ok : List Elem → Option String
  | [] => none
  | e :: rest =>
    let t := clean_text e.text
    if (!(t == "")) && !(address_bad_words.any (fun w => py_in w (py_lower t))) then
      some t
    else address_first_ok rest

/-- Address extraction (app.py:157-169): the loop above, falling back to the
cleaned text of the first element, and to `"N/A"` when no selector matched. -/
def address_from (elems : List Elem) : String :=
  match elems with
  | [] => "N/A"
  | e :: _ =>
    match address_first_ok elems with
    | some t => t
    | none => clean_text e.text

/-- Website extraction before redirect resolution (app.py:176-182): the
default `"don't have website"`, replaced by the first `href` attribute found. -/
def website_raw : List Elem → String
  | [] => "don't have website"
  | e :: rest =>
    match attr_get e "href" with
    | some h => h
    | none => website_raw rest

/-- Website extraction (app.py:176-183), including the redirect resolution. -/
def website_from (elems : List Elem) : String :=
  resolve_google_redirect (website_raw elems)

/-- Rating extraction (app.py:186-200): for each element, search the numeric
token in `aria-label` when that attribute exists, otherwise in the text;
the first element that yields a token wins; `"N/A"` otherwise. -/
def rating_from : List Elem → String
  | [] => "N/A"
  | e :: rest =>
    match attr_get e "aria-label" with
    | some lbl =>
      match reSearchDecimal lbl.data with
      | some m => String.mk m
      | none => rating_from rest
    | none =>
      match reSearchDecimal e.text.data with
      | some m => String.mk m
      | none => rating_from rest

/-- Review-count extraction (app.py:202-209): clean the first element's text,
delete every comma (`replace(',', '')`), search `(\d[\d,]*)`. -/
def reviews_from : List Elem → String
  | [] => "N/A"
  | e :: _ =>
    let t := clean_text e.text
    match reSearchIntComma (t.data.filter (fun c => !(c == ','))) with
    | some m => String.mk m
    | none => "N/A"

/-- The record dictionary appended per card (app.py:215-223), with the
`Emails` key the enrichment pass may add later (app.py:549-554) modelled as
an `Option`, `none` while the key is absent. Field order follows the dict. -/
structure BusinessRecord where
  name : String
  phone : String
  website : String
  address : String
  rating : String
  reviews : String
  category : String
  emails : Option String := none
deriving DecidableEq

/-- The per-card field extraction (body of the loop, app.py:151-223). -/
def processCard (c : Card) : BusinessRecord :=
  { name := text_head_or_na c.name_elems
    phone := text_head_or_na c.phone_elems
    website := website_from c.website_elems
    address := address_from c.address_elems
    rating := rating_from c.rating_elems
    reviews := reviews_from c.reviews_elems
    category := text_head_or_na c.category_elems
    emails := none }

/-- The key/value pairs of the dictionary literal at app.py:215-223. -/
def record_dict (r : BusinessRecord) : List (String × String) :=
  [("Business Name", r.name), ("Phone", r.phone), ("Website", r.website),
   ("Address", r.address), ("Rating", r.rating), ("Reviews", r.reviews),
   ("Category", r.category)]

/-- A fragment as the card loop sees it: either a card whose field lookups
all run to completion, or one whose processing raises an exception (the
`except Exception` arm at app.py:224-226) with the exception's message. -/
inductive Fragment where
  | ok : Card → Fragment
  | raising : String → Fragment
deriving DecidableEq

/-- The card loop of `extract_business_data` (app.py:151-226): `results`
is the accumulator list, a raising card is logged and skipped
(`continue`), a completing card appends its record. -/
def extract_business_data_loop (results : List BusinessRecord) :
    List Fragment → List BusinessRecord
  | [] => results
  | Fragment.ok c :: fs => extract_business_data_loop (results ++ [processCard c]) fs
  | Fragment.raising _ :: fs => extract_business_data_loop results fs

/-- `extract_business_data` (app.py:133-228) on the fragments the card
selectors produced: `results = []` then the loop. (When no card selector
matched, the fragment list is `[]` and the early return at app.py:145-147
coincides with the loop on `[]`.) -/
def extract_business_data (frags : List Fragment) : List BusinessRecord :=
  extract_business_data_loop [] frags

/-- The record one fragment contributes, if any. -/
def fragRecord : Fragment → Option BusinessRecord
  | Fragment.ok c => some (processCard c)
  | Fragment.raising _ => none

/-- `captcha_indicators` (app.py:246). -/
def captcha_indicators : List String := ["captcha", "denied", "sorry", "automated", "robot"]

/-- `handle_captcha` (app.py:244-250): any indicator occurring in the
lowercased body. (The `query` argument of the source is only logged.) -/
def handle_captcha (body : String) : Bool :=
  captcha_indicators.any (fun ind => py_in ind (py_lower body))

/-- The outcome classification implicit in the retry loop (app.py:281-305):
`handle_captcha` is consulted first, then the status code. -/
inductive FetchOutcome where
  | Blocked : FetchOutcome
  | HttpError : Nat → FetchOutcome
  | Success : FetchOutcome
deriving DecidableEq

/-- Classify one response the way the loop branches do (app.py:281-290):
the CAPTCHA check runs before — and regardless of — the status check;
a non-200 status without an indicator is the retry (`HttpError`) branch. -/
def classify_response (body : String) (status : Nat) : FetchOutcome :=
  if handle_captcha body then FetchOutcome.Blocked
  else if status ≠ 200 then FetchOutcome.HttpError status
  else FetchOutcome.Success

/-- `MAX_RETRIES` (app.py:21). -/
def MAX_RETRIES : Nat := 5

/-- `CAPTCHA_BYPASS_ATTEMPTS` (app.py:23). -/
def CAPTCHA_BYPASS_ATTEMPTS : Nat := 3

/-- The mutable state of one `scrape_google_maps` call (app.py:263-268):
the two retry counters, the pagination cursor of the next fetch (`none` =
the initial `params = {'q': query}` request carries no offset; `some n` =
a `start` offset as in app.py:315), the accumulated records, and whether
the loop has been left by `break`. -/
structure Session where
  retries : Nat
  captcha_retries : Nat
  cursor : Option Nat
  all_results : List BusinessRecord
  done : Bool
deriving DecidableEq

/-- What one iteration of the retry loop receives from the network: a
response (its body abstracted to the text the CAPTCHA check reads plus the
fragments parsing that body yields) or a raised
`requests.exceptions.RequestException`. -/
inductive FetchResult where
  | response : String → Nat → List Fragment → FetchResult
  | exc : FetchResult
deriving DecidableEq

/-- One iteration of the retry loop of `scrape_google_maps`
(app.py:272-310): an exception increments `retries` (app.py:307-310); a
CAPTCHA hit increments `captcha_retries` and `continue`s (app.py:281-284); a
non-200 increments `retries` and `continue`s (app.py:286-290); a successful
response extends `all_results` with the page's records, resets `retries` to
0 and `break`s (app.py:292-305, `done := true`). The `result_count` read at
app.py:299 is only logged and is omitted. Sleeps have no observable state. -/
def loop_step (s : Session) : FetchResult → Session
  | FetchResult.exc => { s with retries := s.retries + 1 }
  | FetchResult.response body status page =>
    match classify_response body status with
    | FetchOutcome.Blocked => { s with captcha_retries := s.captcha_retries + 1 }
    | FetchOutcome.HttpError _ => { s with retries := s.retries + 1 }
    | FetchOutcome.Success =>
      { s with all_results := s.all_results ++ extract_business_data page,
               retries := 0, done := true }

/-- The `while` guard (app.py:272) together with the `break` flag. -/
def loop_active (s : Session) : Bool :=
  !s.done && decide (s.retries < MAX_RETRIES) &&
    decide (s.captcha_retries < CAPTCHA_BYPASS_ATTEMPTS)

/-- The cursors the successive loop iterations fetch, given the successive
network results: each active iteration issues one request targeting the
session's current cursor, then steps the state. -/
def loop_trace (s : Session) : List FetchResult → List (Option Nat)
  | [] => []
  | r :: rs => if loop_active s then s.cursor :: loop_trace (loop_step s r) rs else []

/-- The merge in `main` (app.py:497-511): per query, the scraped list is
truncated to `max_results` (app.py:504) and, when non-empty, appended to
`all_data` (app.py:510-511). `batches` is the per-query scrape output in
processing order; the accumulator starts empty. -/
def merge_results (batches : List (List BusinessRecord)) (max_results : Nat) :
    List BusinessRecord :=
  batches.foldl (fun acc rs => if rs.isEmpty then acc else acc ++ rs.take max_results) []

/-- Modelled from the spec: the deduplication key of §3 — `(name, address)`,
falling back to the website when the address is missing (the code's absent
markers are `"N/A"` and the empty string). The source has no deduplication
code; this definition exists only to compare the merged list against the
spec's uniqueness claim. -/
def dedup_key (r : BusinessRecord) : String × String :=
  (r.name, if r.address = "N/A" ∨ r.address = "" then r.website else r.address)

/-- The no-website sentinel of the source (app.py:101,176,546). -/
def SENTINEL : String := "don't have website"

/-- `extract_emails_from_website` (app.py:99-120). `findall` abstracts
`re.findall(email_pattern, ·)` — which tokens it returns is irrelevant to
every claim about this function; `net` is the HTTP layer
(`none` = `requests.get` raised, e.g. a timeout; `some (status, body)` = a
response). Returns the URL actually requested (`none` = no request was
issued) together with the email list. `list(set(...))` iterates CPython's
set in an unspecified order; it is modelled as first-occurrence
deduplication, on which no claim depends. -/
def extract_emails_from_website (findall : String → List String)
    (net : String → Option (Nat × String)) (url : String) :
    Option String × List String :=
  if url = "" ∨ url = SENTINEL then (none, [])
  else
    let resolved := resolve_google_redirect url
    match net resolved with
    | none => (some resolved, [])
    | some p =>
      if p.1 ≠ 200 then (some resolved, [])
      else (some resolved, ((findall p.2).eraseDups).take 3)

/-- The enrichment step of `main` for one record (app.py:545-554): fetch
emails only when the website is non-empty and not the sentinel; join found
emails with `", "`, otherwise store `"N/A"`. -/
def enrich_business (findall : String → List String)
    (net : String → Option (Nat × String)) (r : BusinessRecord) : BusinessRecord :=
  if r.website ≠ "" ∧ r.website ≠ SENTINEL then
    let emails := (extract_emails_from_website findall net r.website).2
    if emails ≠ [] then { r with emails := some (String.intercalate ", " emails) }
    else { r with emails := some "N/A" }
  else { r with emails := some "N/A" }

/-- A card none of whose field selectors matched anything. -/
def nameless_card : Card := ⟨[], [], [], [], [], [], []⟩

/-- A card carrying the spec's well-formed rating/review texts: the rating
element exposes `aria-label="4.5 ★ (1,024)"`, the review element's text is
`(1,024)`. -/
def rated_card : Card :=
  ⟨[⟨"Cafe Lumen", []⟩], [], [], [],
   [⟨"", [("aria-label", "4.5 ★ (1,024)")]⟩],
   [⟨"(1,024)", []⟩], []⟩

/-- A concrete record for merge counterexamples. -/
def rec0 : BusinessRecord :=
  ⟨"Joes Pizza", "123-4567", "https://joes.example", "1 Main St", "4.5", "100",
   "Pizza", none⟩

/-- C1 counterexample: on a fragment for which no name-extraction rule
resolves a name (no selector matched), `extract_business_data` emits one
record carrying the placeholder name `"N/A"`, not zero records. -/
theorem C1_counterexample :
    extract_business_data [Fragment.ok nameless_card] =
      [⟨"N/A", "N/A", "don't have website", "N/A", "N/A", "N/A", "N/A", none⟩] ∧
    ((extract_business_data [Fragment.ok nameless_card]).length == 0) = false :=
  ⟨by decide, by decide⟩

/-- C1 (amended): a fragment whose name selectors all fail is not discarded —
the extractor appends a record for it whose name is the placeholder `"N/A"`,
whatever the other fields hold. -/
theorem C1_placeholder_name (a p w r v g : List Elem) :
    (processCard ⟨[], a, p, w, r, v, g⟩).name = "N/A" ∧
    extract_business_data [Fragment.ok ⟨[], a, p, w, r, v, g⟩] =
      [processCard ⟨[], a, p, w, r, v, g⟩] :=
  ⟨rfl, rfl⟩

/-- C2 counterexample: two query batches yielding the same record produce a
merged list keeping both copies — the `(name, address|website)` key is not
unique and the later duplicate is not dropped. -/
theorem C2_counterexample :
    merge_results [[rec0], [rec0]] 30 = [rec0, rec0] ∧
    (merge_results [[rec0], [rec0]] 30).map dedup_key =
      [dedup_key rec0, dedup_key rec0] ∧
    ((merge_results [[rec0], [rec0]] 30).length == 1) = false :=
  ⟨by decide, by decide, by decide⟩

/-- Accumulator form of the merge loop. -/
theorem merge_results_loop (m : Nat) (batches : List (List BusinessRecord)) :
    ∀ acc, batches.foldl (fun a rs => if rs.isEmpty then a else a ++ rs.take m) acc =
      acc ++ (batches.map (List.take m)).flatten := by
  induction batches with
  | nil => intro acc; simp
  | cons rs bs ih =>
    intro acc
    rw [List.foldl_cons, ih]
    cases rs with
    | nil => simp
    | cons x xs => simp [List.append_assoc]

/-- C2 (amended): no deduplication happens at merge time — the final result
is exactly the concatenation of the per-query result lists, each truncated
to the max-results cap, so records with equal keys are all retained. -/
theorem C2_merge_keeps_duplicates (batches : List (List BusinessRecord)) (m : Nat) :
    merge_results batches m = (batches.map (List.take m)).flatten := by
  simpa [merge_results] using merge_results_loop m batches []

/-- C3 counterexample: the record emitted for a concrete fragment carries no
`sourceQuery` key at all, and no field of it equals the query
`"cafes in paris"` that notionally produced it. -/
theorem C3_counterexample :
    (((record_dict (processCard nameless_card)).map Prod.fst).contains "sourceQuery")
        = false ∧
    ((record_dict (processCard nameless_card)).all
        (fun kv => !(kv.2 == "cafes in paris"))) = true :=
  ⟨by decide, by decide⟩

/-- C3 (amended): emitted records carry no `sourceQuery` field — every
record's dictionary has exactly the keys Business Name, Phone, Website,
Address, Rating, Reviews and Category (before the optional Emails key), and
the producing query is not stored in the record. -/
theorem C3_no_source_query_field (c : Card) :
    (record_dict (processCard c)).map Prod.fst =
      ["Business Name", "Phone", "Website", "Address", "Rating", "Reviews", "Category"] ∧
    (((record_dict (processCard c)).map Prod.fst).contains "sourceQuery") = false :=
  ⟨rfl, rfl⟩

/-- C4 counterexample: a 200 response whose body contains the claimed
vocabulary token `"unusual traffic"` (and no token of the code's list) is
classified `Success`, not `Blocked`. -/
theorem C4_counterexample :
    py_in "unusual traffic"
      (py_lower "We detected unusual traffic from your computer network") = true ∧
    classify_response "We detected unusual traffic from your computer network" 200 =
      FetchOutcome.Success :=
  ⟨by decide, by decide⟩

/-- C4 (amended): a response is classified `Blocked` exactly when its body
contains, case-insensitively, one of the tokens captcha, denied, sorry,
automated, robot — regardless of the status code, since the CAPTCHA check
runs before the status check; a 200 response containing none of these
tokens is classified `Success`. -/
theorem C4_blocked_vocabulary (body : String) (status : Nat) :
    (classify_response body status = FetchOutcome.Blocked ↔
      ∃ tok ∈ captcha_indicators, py_in tok (py_lower body) = true) ∧
    (status = 200 → (∀ tok ∈ captcha_indicators, py_in tok (py_lower body) = false) →
      classify_response body status = FetchOutcome.Success) := by
  constructor
  · constructor
    · intro h
      rw [← List.any_eq_true]
      by_contra hc
      have hc' : handle_captcha body = false := by
        have := (Bool.not_eq_true (handle_captcha body)).mp
        exact this (by rw [handle_captcha]; exact hc)
      rw [classify_response, hc'] at h
      simp only [Bool.false_eq_true, if_false] at h
      split at h <;> simp_all
    · intro hex
      have hc : handle_captcha body = true := by
        rw [handle_captcha, List.any_eq_true]; exact hex
      simp [classify_response, hc]
  · intro h200 hall
    have hc : handle_captcha body = false := by
      rw [handle_captcha, List.any_eq_false]
      intro tok ht
      simp [hall tok ht]
    simp [classify_response, hc, h200]

/-- Witness for C4: a clean 200 response is classified `Success`. -/
theorem C4_blocked_vocabulary_witness :
    classify_response "all results loaded" 200 = FetchOutcome.Success :=
  (C4_blocked_vocabulary "all results loaded" 200).2 rfl (by decide)

/-- C5 counterexample: a successful fetch in a session with
`captcha_retries = 2` resets `retries` to 0 but leaves the CAPTCHA-retry
counter at 2 — it is not reset to zero as claimed. -/
theorem C5_counterexample :
    loop_step ⟨3, 2, none, [], false⟩ (FetchResult.response "plain results page" 200 []) =
      ⟨0, 2, none, [], true⟩ ∧
    ((loop_step ⟨3, 2, none, [], false⟩
        (FetchResult.response "plain results page" 200 [])).captcha_retries == 0) = false :=
  ⟨by decide, by decide⟩

/-- C5 (amended): a fetch whose outcome is `Success` resets the
failure-retry counter to zero and leaves the retry loop, but the
CAPTCHA-retry counter is left unchanged, not reset. -/
theorem C5_success_resets_only_failure_retries (s : Session) (body : String)
    (status : Nat) (page : List Fragment)
    (hb : handle_captcha body = false) (hst : status = 200) :
    loop_step s (FetchResult.response body status page) =
      { s with all_results := s.all_results ++ extract_business_data page,
               retries := 0, done := true } ∧
    (loop_step s (FetchResult.response body status page)).captcha_retries =
      s.captcha_retries := by
  have hc : classify_response body status = FetchOutcome.Success := by
    simp [classify_response, hb, hst]
  constructor
  · simp [loop_step, hc]
  · simp [loop_step, hc]

/-- Witness for C5 (amended) at a concrete session and response. -/
theorem C5_success_resets_only_failure_retries_witness :
    loop_step ⟨3, 2, none, [], false⟩ (FetchResult.response "plain page" 200 []) =
      ⟨0, 2, none, [], true⟩ :=
  (C5_success_resets_only_failure_retries ⟨3, 2, none, [], false⟩
    "plain page" 200 [] (by decide) rfl).1

/-- C6 counterexample: the spec's redirect-wrapper
`https://example.com/url?q=https://biz.example/` is returned unchanged —
it is not resolved to the embedded target `https://biz.example/`. -/
theorem C6_counterexample :
    resolve_google_redirect "https://example.com/url?q=https://biz.example/" =
      "https://example.com/url?q=https://biz.example/" ∧
    ((resolve_google_redirect "https://example.com/url?q=https://biz.example/" ==
        "https://biz.example/")) = false :=
  ⟨by decide, by decide⟩

/-- C6 (amended): only URLs starting with the literal prefix
`https://www.google.com/url?` are resolved, to their first `q` query
parameter; every other URL — including redirect wrappers on other hosts —
and every google wrapper without a `q` parameter is returned unchanged. -/
theorem C6_redirect_resolution :
    (∀ url : String, py_startswith url "https://www.google.com/url?" = false →
      resolve_google_redirect url = url) ∧
    resolve_google_redirect "https://www.google.com/url?q=https://biz.example/" =
      "https://biz.example/" ∧
    resolve_google_redirect "https://www.google.com/url?sa=t&usg=xyz" =
      "https://www.google.com/url?sa=t&usg=xyz" := by
  refine ⟨?_, by decide, by decide⟩
  intro url h
  simp [resolve_google_redirect, h]

/-- Witness for C6 (amended): a non-google URL passes through unchanged. -/
theorem C6_redirect_resolution_witness :
    resolve_google_redirect "http://maps.example/place?id=7" =
      "http://maps.example/place?id=7" :=
  C6_redirect_resolution.1 "http://maps.example/place?id=7" (by decide)

/-- C7 (confirmed): on the spec's well-formed fragment — rating element with
`aria-label="4.5 ★ (1,024)"`, review element text `(1,024)` — extraction
yields rating `4.5` and review count `1024`, tolerating the thousands
separator and surrounding symbols; an out-of-range rating such as `9.9` is
kept exactly as extracted, never clamped. -/
theorem C7_rating_reviews_extraction :
    (processCard rated_card).rating = "4.5" ∧
    (processCard rated_card).reviews = "1024" ∧
    rating_from [⟨"9.9 ★", []⟩] = "9.9" :=
  ⟨by decide, by decide, by decide⟩

/-- C8 (confirmed): a `Blocked` outcome never advances the pagination
cursor — after a blocked attempt the session's cursor is unchanged, and in
a Blocked-then-anything trace both fetches target exactly the same cursor. -/
theorem C8_blocked_keeps_cursor (s : Session) (body : String) (status : Nat)
    (page : List Fragment) (r2 : FetchResult)
    (hb : handle_captcha body = true)
    (hact : loop_active s = true)
    (hcap : s.captcha_retries + 1 < CAPTCHA_BYPASS_ATTEMPTS) :
    (loop_step s (FetchResult.response body status page)).cursor = s.cursor ∧
    loop_trace s [FetchResult.response body status page, r2] =
      [s.cursor, s.cursor] := by
  have hc : classify_response body status = FetchOutcome.Blocked := by
    simp [classify_response, hb]
  have hstep : loop_step s (FetchResult.response body status page) =
      { s with captcha_retries := s.captcha_retries + 1 } := by
    simp [loop_step, hc]
  refine ⟨by simp [hstep], ?_⟩
  simp only [loop_active, Bool.and_eq_true, Bool.not_eq_true',
    decide_eq_true_eq] at hact
  have hact2 : loop_active { s with captcha_retries := s.captcha_retries + 1 } = true := by
    simp only [loop_active, Bool.and_eq_true, Bool.not_eq_true', decide_eq_true_eq]
    exact ⟨⟨hact.1.1, hact.1.2⟩, hcap⟩
  have hact1 : loop_active s = true := by
    simp only [loop_active, Bool.and_eq_true, Bool.not_eq_true', decide_eq_true_eq]
    exact hact
  simp [loop_trace, hact1, hact2, hstep]

/-- Witness for C8: a fresh session blocked once then served fetches the
initial cursor twice. -/
theorem C8_blocked_keeps_cursor_witness :
    loop_trace ⟨0, 0, none, [], false⟩
      [FetchResult.response "captcha page" 200 [], FetchResult.response "fine" 200 []] =
      [none, none] :=
  (C8_blocked_keeps_cursor ⟨0, 0, none, [], false⟩ "captcha page" 200 []
    (FetchResult.response "fine" 200 []) (by decide) (by decide) (by decide)).2

/-- C9 (confirmed): the enricher issues no secondary fetch for the
no-website sentinel; a fetch that raises (e.g. a timeout) or returns a
non-200 status yields an empty email list, never an error; and enrichment
only ever sets the Emails field, leaving the primary extraction result
untouched. -/
theorem C9_enricher_isolation :
    (∀ findall net, (extract_emails_from_website findall net SENTINEL).1 = none) ∧
    (∀ findall net url, net (resolve_google_redirect url) = none →
      (extract_emails_from_website findall net url).2 = []) ∧
    (∀ findall net url st body,
      net (resolve_google_redirect url) = some (st, body) → st ≠ 200 →
      (extract_emails_from_website findall net url).2 = []) ∧
    (∀ findall net r, ∃ e, enrich_business findall net r = { r with emails := e }) := by
  refine ⟨?_, ?_, ?_, ?_⟩
  · intro f net
    simp [extract_emails_from_website]
  · intro f net url h
    by_cases hu : url = "" ∨ url = SENTINEL
    · simp [extract_emails_from_website, hu]
    · simp [extract_emails_from_website, hu, h]
  · intro f net url st body h hst
    by_cases hu : url = "" ∨ url = SENTINEL
    · simp [extract_emails_from_website, hu]
    · simp [extract_emails_from_website, hu, h, hst]
  · intro f net r
    unfold enrich_business
    by_cases h : r.website ≠ "" ∧ r.website ≠ SENTINEL
    · rw [if_pos h]
      show ∃ e,
        (if (extract_emails_from_website f net r.website).2 ≠ [] then
          { r with emails := some (String.intercalate ", "
              ((extract_emails_from_website f net r.website).2)) }
        else { r with emails := some "N/A" }) = { r with emails := e }
      by_cases he : (extract_emails_from_website f net r.website).2 ≠ []
      · rw [if_pos he]; exact ⟨_, rfl⟩
      · rw [if_neg he]; exact ⟨_, rfl⟩
    · rw [if_neg h]; exact ⟨_, rfl⟩

/-- Witness for C9: the sentinel triggers no request; a universally failing
network yields an empty email list. -/
theorem C9_enricher_isolation_witness :
    (extract_emails_from_website (fun _ => []) (fun _ => none) SENTINEL).1 = none ∧
    (extract_emails_from_website (fun _ => []) (fun _ => none)
        "https://biz.example/").2 = [] :=
  ⟨C9_enricher_isolation.1 (fun _ => []) (fun _ => none),
   C9_enricher_isolation.2.1 (fun _ => []) (fun _ => none) "https://biz.example/" rfl⟩

/-- Accumulator form of the card loop. -/
theorem extract_loop_general (frags : List Fragment) :
    ∀ acc, extract_business_data_loop acc frags = acc ++ frags.filterMap fragRecord := by
  induction frags with
  | nil => intro acc; simp [extract_business_data_loop]
  | cons f fs ih =>
    intro acc
    cases f with
    | ok c => simp [extract_business_data_loop, fragRecord, ih, List.append_assoc]
    | raising msg => simp [extract_business_data_loop, fragRecord, ih]

/-- C10 (confirmed): an exception raised while extracting one fragment is
contained to that fragment — page extraction of any surrounding fragments is
exactly as if the failing fragment were absent: earlier records are kept,
later fragments are still processed, and the extractor itself never raises
(it is a total function). -/
theorem C10_fragment_exception_containment (before after : List Fragment) (msg : String) :
    extract_business_data (before ++ Fragment.raising msg :: after) =
      extract_business_data before ++ extract_business_data after := by
  simp [extract_business_data, extract_loop_general, List.filterMap_append, fragRecord]

end GMaps
